import Mathlib

/-!
Shallow embedding of `src/incubator_simulation.py` (Streamlit incubator
simulator).  Numeric values are modelled as rationals; Python `round`
(banker's rounding, round-half-to-even) is modelled exactly on rationals;
`math.sin` is modelled as an abstract injected function `sin : ℚ → ℚ`, and
`random.uniform` as injected noise offsets, following the spec's requirement
that the randomness source be injectable.
-/

namespace Incubator

/-- Python `round(x)` with no digit argument: round half to even,
returning an integer.  Used for the FAN channel (`int(round(fan))`). -/
def roundHalfEven (x : ℚ) : ℤ :=
  let f := ⌊x⌋
  let r := x - (f : ℚ)
  if r < 0.5 then f
  else if 0.5 < r then f + 1
  else if f % 2 = 0 then f else f + 1

/-- Python `round(x, n)`: round to `n` decimal places, half to even. -/
def roundTo (n : ℕ) (x : ℚ) : ℚ :=
  (roundHalfEven (x * 10 ^ n) : ℚ) / 10 ^ n

/-- Rendering of a numeric value inside an f-string such as
`f"TEMP {rec['TEMP']}"`.  Any injective rendering identifies the value;
we use the canonical rational rendering. -/
def fmtQ (q : ℚ) : String := toString q

/-- The threshold store: ten bounds, keys as in `default_thresholds`
(lines 62-68 of the source). -/
structure Thresholds where
  TEMP_min : ℚ
  TEMP_max : ℚ
  HUMID_min : ℚ
  HUMID_max : ℚ
  O2_min : ℚ
  O2_max : ℚ
  CO2_min : ℚ
  CO2_max : ℚ
  FAN_min : ℚ
  FAN_max : ℚ
deriving DecidableEq, Repr

/-- The `default_thresholds` dictionary of lines 62-68 of the source. -/
def default_thresholds : Thresholds :=
  { TEMP_min := 36.0, TEMP_max := 38.0
    HUMID_min := 50, HUMID_max := 70
    O2_min := 19, O2_max := 25
    CO2_min := 0.03, CO2_max := 0.06
    FAN_min := 0, FAN_max := 100 }

/-- One row of the log: `[rec['timestamp'], rec['TEMP'], rec['HUMID'],
rec['O2'], rec['CO2'], rec['FAN'], rec['alarm']]` (line 190).  This is also
the `rec` record returned by `simulate_step`. -/
structure Row where
  timestamp : String
  TEMP : ℚ
  HUMID : ℚ
  O2 : ℚ
  CO2 : ℚ
  FAN : ℤ
  alarm : String
deriving DecidableEq, Repr

/-- The Streamlit session state (lines 30-45 and 70-71): control flags, the
unbounded log, the simulated clock, the four capacity-300 trend buffers
(`deque(maxlen=300)`), and the threshold store. -/
structure SessionState where
  running : Bool
  alarm_paused : Bool
  log_rows : List Row
  sim_t : ℚ
  temp_buffer : List ℚ
  humid_buffer : List ℚ
  o2_buffer : List ℚ
  co2_buffer : List ℚ
  thresholds : Thresholds
deriving DecidableEq, Repr

/-- Session-state defaults (lines 30-45, 70-71): stopped, alarm active,
empty log, `sim_t = 0`, each buffer pre-filled with 300 baseline values,
default thresholds. -/
def initState : SessionState :=
  { running := false
    alarm_paused := false
    log_rows := []
    sim_t := 0
    temp_buffer := List.replicate 300 (37.0 : ℚ)
    humid_buffer := List.replicate 300 (60.0 : ℚ)
    o2_buffer := List.replicate 300 (21.0 : ℚ)
    co2_buffer := List.replicate 300 (0.04 : ℚ)
    thresholds := default_thresholds }

/-- Injected noise offsets, one per channel, standing for the five
`random.uniform` draws of lines 150-154. -/
structure Noise where
  temp : ℚ
  humid : ℚ
  o2 : ℚ
  co2 : ℚ
  fan : ℚ
deriving DecidableEq, Repr

/-- The per-tick configuration read by `simulate_step`: the noise checkbox,
the noise draws, the two manual overrides, the timestamp assigned by the
caller (`datetime.now().isoformat()`), and the tick increment `dt`. -/
structure StepInput where
  simulate_noise : Bool
  noise : Noise
  manual_temp : ℚ
  manual_humid : ℚ
  timestamp : String
  dt : ℚ
deriving DecidableEq, Repr

/-- Appending to a `deque(maxlen=cap)`: append on the right, dropping from
the left whatever exceeds the capacity. -/
def pushRing (cap : ℕ) (x : ℚ) (l : List ℚ) : List ℚ :=
  let l2 := l ++ [x]
  l2.drop (l2.length - cap)

/-- The TEMP channel of lines 150 and 156-158: baseline sinusoid plus
optional noise, replaced outright by a non-negative manual override. -/
def raw_temp (sin : ℚ → ℚ) (inp : StepInput) (t : ℚ) : ℚ :=
  if inp.manual_temp ≥ 0 then inp.manual_temp
  else 37.0 + 0.3 * sin (0.05 * t) +
    (if inp.simulate_noise then inp.noise.temp else 0)

/-- The HUMID channel of lines 151 and 159-160. -/
def raw_humid (sin : ℚ → ℚ) (inp : StepInput) (t : ℚ) : ℚ :=
  if inp.manual_humid ≥ 0 then inp.manual_humid
  else 60 + 5 * sin (0.03 * t) +
    (if inp.simulate_noise then inp.noise.humid else 0)

/-- The O2 channel of line 152 (no override). -/
def raw_o2 (sin : ℚ → ℚ) (inp : StepInput) (t : ℚ) : ℚ :=
  21 + 0.5 * sin (0.02 * t) +
    (if inp.simulate_noise then inp.noise.o2 else 0)

/-- The CO2 channel of line 153 (no override). -/
def raw_co2 (sin : ℚ → ℚ) (inp : StepInput) (t : ℚ) : ℚ :=
  0.04 + 0.01 * sin (0.01 * t) +
    (if inp.simulate_noise then inp.noise.co2 else 0)

/-- The FAN channel of line 154 (no override). -/
def raw_fan (sin : ℚ → ℚ) (inp : StepInput) (t : ℚ) : ℚ :=
  50 + 10 * sin (0.02 * t) +
    (if inp.simulate_noise then inp.noise.fan else 0)

/-- The alarm evaluation of lines 176-187: five independent strict range
checks against the threshold store, in the fixed order TEMP, HUMID, O2,
CO2, FAN, each appending a message naming the parameter and its rounded
value. -/
def alarm_checks (rTEMP rHUMID rO2 rCO2 : ℚ) (rFAN : ℤ) (th : Thresholds) :
    List String :=
  (if rTEMP < th.TEMP_min ∨ rTEMP > th.TEMP_max
    then ["TEMP " ++ fmtQ rTEMP] else []) ++
  (if rHUMID < th.HUMID_min ∨ rHUMID > th.HUMID_max
    then ["HUMID " ++ fmtQ rHUMID] else []) ++
  (if rO2 < th.O2_min ∨ rO2 > th.O2_max
    then ["O2 " ++ fmtQ rO2] else []) ++
  (if rCO2 < th.CO2_min ∨ rCO2 > th.CO2_max
    then ["CO2 " ++ fmtQ rCO2] else []) ++
  (if (rFAN : ℚ) < th.FAN_min ∨ (rFAN : ℚ) > th.FAN_max
    then ["FAN " ++ toString rFAN] else [])

/-- The `simulate_step` function (lines 146-192): advance the simulated
clock, compute
the five channels, push the raw TEMP/HUMID/O2/CO2 values onto the trend
buffers, build the rounded record, evaluate the alarms, join them with
`"; "`, append the row to the log, and return the record. -/
def simulate_step (sin : ℚ → ℚ) (inp : StepInput) (s : SessionState) :
    SessionState × Row :=
  let t := s.sim_t + inp.dt
  let temp := raw_temp sin inp t
  let humid := raw_humid sin inp t
  let o2 := raw_o2 sin inp t
  let co2 := raw_co2 sin inp t
  let fan := raw_fan sin inp t
  let rTEMP := roundTo 2 temp
  let rHUMID := roundTo 1 humid
  let rO2 := roundTo 2 o2
  let rCO2 := roundTo 3 co2
  let rFAN := roundHalfEven fan
  let alarms := alarm_checks rTEMP rHUMID rO2 rCO2 rFAN s.thresholds
  let alarm := if alarms.isEmpty then "" else String.intercalate "; " alarms
  let row : Row :=
    { timestamp := inp.timestamp, TEMP := rTEMP, HUMID := rHUMID,
      O2 := rO2, CO2 := rCO2, FAN := rFAN, alarm := alarm }
  ({ s with
      sim_t := t
      temp_buffer := pushRing 300 temp s.temp_buffer
      humid_buffer := pushRing 300 humid s.humid_buffer
      o2_buffer := pushRing 300 o2 s.o2_buffer
      co2_buffer := pushRing 300 co2 s.co2_buffer
      log_rows := s.log_rows ++ [row] },
    row)

/-- The Clear Log handler (lines 254-256): reset the unbounded log to the
empty sequence; nothing else changes. -/
def clear_log (s : SessionState) : SessionState :=
  { s with log_rows := [] }

/-- The observable outcome of the Save Log CSV handler. -/
inductive SaveOutcome where
  | savedFile (header : List String) (rows : List Row)
  | noData (msg : String)
deriving DecidableEq, Repr

/-- The Save Log CSV handler (lines 133-141): with a non-empty log,
serialize every row under the fixed header; with an empty log, report an
informational message and write nothing.  The session state is returned
unchanged in both cases. -/
def save_log (s : SessionState) : SessionState × SaveOutcome :=
  if s.log_rows.isEmpty then
    (s, SaveOutcome.noData "No data to save yet.")
  else
    (s, SaveOutcome.savedFile
      ["timestamp", "TEMP", "HUMID", "O2", "CO2", "FAN", "alarm"]
      s.log_rows)

/-- The alarm-status rendering of lines 242-248: an unpaused violation is an
error, a paused violation a warning, and an empty alarm a success. -/
inductive AlarmRender where
  | errorBox (msg : String)
  | warningBox (msg : String)
  | successBox (msg : String)
deriving DecidableEq, Repr

/-- Alarm-status presentation (lines 243-248). -/
def render_alarm_status (alarm : String) (paused : Bool) : AlarmRender :=
  if alarm ≠ "" ∧ ¬paused then AlarmRender.errorBox alarm
  else if alarm ≠ "" ∧ paused then
    AlarmRender.warningBox ("Alarm paused: " ++ alarm)
  else AlarmRender.successBox "All parameters normal"

/-- Iterated ticks: fold `simulate_step` over a list of per-tick inputs,
keeping the session state. -/
def runSteps (sin : ℚ → ℚ) (s : SessionState) : List StepInput → SessionState
  | [] => s
  | i :: is => runSteps sin (simulate_step sin i s).1 is

/-- The sequence of raw TEMP values appended to `temp_buffer` along a run. -/
def tempTrace (sin : ℚ → ℚ) (s : SessionState) : List StepInput → List ℚ
  | [] => []
  | i :: is =>
    raw_temp sin i (s.sim_t + i.dt) :: tempTrace sin (simulate_step sin i s).1 is

/-- The sequence of raw HUMID values appended to `humid_buffer` along a run. -/
def humidTrace (sin : ℚ → ℚ) (s : SessionState) : List StepInput → List ℚ
  | [] => []
  | i :: is =>
    raw_humid sin i (s.sim_t + i.dt) :: humidTrace sin (simulate_step sin i s).1 is

/-- The sequence of raw O2 values appended to `o2_buffer` along a run. -/
def o2Trace (sin : ℚ → ℚ) (s : SessionState) : List StepInput → List ℚ
  | [] => []
  | i :: is =>
    raw_o2 sin i (s.sim_t + i.dt) :: o2Trace sin (simulate_step sin i s).1 is

/-- The sequence of raw CO2 values appended to `co2_buffer` along a run. -/
def co2Trace (sin : ℚ → ℚ) (s : SessionState) : List StepInput → List ℚ
  | [] => []
  | i :: is =>
    raw_co2 sin i (s.sim_t + i.dt) :: co2Trace sin (simulate_step sin i s).1 is

/-- A zero sine function, a concrete instance of the injected `math.sin`
used to exercise the step function on closed inputs. -/
def sinZero : ℚ → ℚ := fun _ => 0

/-- Zero noise offsets. -/
def noiseZero : Noise := { temp := 0, humid := 0, o2 := 0, co2 := 0, fan := 0 }

/-- A quiet tick: noise disabled, both manual overrides at the −1 sentinel,
the default 200 ms interval. -/
def inpQuiet : StepInput :=
  { simulate_noise := false, noise := noiseZero,
    manual_temp := -1, manual_humid := -1, timestamp := "t0", dt := 0.2 }

/-- A sample row, used to exercise the log operations on closed inputs. -/
def sampleRow : Row :=
  { timestamp := "t0", TEMP := 37.0, HUMID := 60.0, O2 := 21.0,
    CO2 := 0.04, FAN := 50, alarm := "" }

/-- The five monitored parameters, in the order the source checks them. -/
inductive Param where
  | TEMP
  | HUMID
  | O2
  | CO2
  | FAN
deriving DecidableEq, Repr

/-- The fixed order of the five alarm checks in the source:
TEMP, HUMID, O2, CO2, FAN. -/
def param_order : List Param :=
  [Param.TEMP, Param.HUMID, Param.O2, Param.CO2, Param.FAN]

/-- Spec-side predicate (from the spec's Alarm Evaluator contract): a
parameter is flagged exactly when its reading value lies strictly outside
the configured [min, max]. -/
def spec_flagged (p : Param) (rTEMP rHUMID rO2 rCO2 : ℚ) (rFAN : ℤ)
    (th : Thresholds) : Bool :=
  match p with
  | Param.TEMP => decide (rTEMP < th.TEMP_min ∨ rTEMP > th.TEMP_max)
  | Param.HUMID => decide (rHUMID < th.HUMID_min ∨ rHUMID > th.HUMID_max)
  | Param.O2 => decide (rO2 < th.O2_min ∨ rO2 > th.O2_max)
  | Param.CO2 => decide (rCO2 < th.CO2_min ∨ rCO2 > th.CO2_max)
  | Param.FAN => decide ((rFAN : ℚ) < th.FAN_min ∨ (rFAN : ℚ) > th.FAN_max)

/-- Spec-side message text: the string identifying a parameter and its
rounded value. -/
def spec_message (p : Param) (rTEMP rHUMID rO2 rCO2 : ℚ) (rFAN : ℤ) :
    String :=
  match p with
  | Param.TEMP => "TEMP " ++ fmtQ rTEMP
  | Param.HUMID => "HUMID " ++ fmtQ rHUMID
  | Param.O2 => "O2 " ++ fmtQ rO2
  | Param.CO2 => "CO2 " ++ fmtQ rCO2
  | Param.FAN => "FAN " ++ toString rFAN

/-- A tick whose manual temperature override is `40` and manual humidity
override is `55`, both representable at the displayed precision. -/
def inpManual40 : StepInput :=
  { inpQuiet with manual_temp := 40, manual_humid := 55 }

/-- A tick whose manual temperature override is `0.001`, non-negative but
not representable at two decimal places. -/
def inpMilli : StepInput := { inpQuiet with manual_temp := 0.001 }

/-- A quiet tick with manual temperature override `36.505`: three decimal
places, so the buffered raw value and the rounded record value differ. -/
def inpFanDemo : StepInput := { inpQuiet with manual_temp := 36.505 }

end Incubator

namespace Incubator

/-- Claim C2 (corrected) — for every call of the reading generator with
`manual_temp ≥ 0`, the returned TEMP equals `round(manual_temp, 2)`
(the sinusoid and the noise are bypassed), regardless of `sim_t`, the noise
flag and the rest of the state; similarly for `manual_humid ≥ 0` the
returned HUMID equals `round(manual_humid, 1)`. -/
theorem manual_override_rounded (sin : ℚ → ℚ) (inp : StepInput)
    (s : SessionState) :
    (inp.manual_temp ≥ 0 →
      (simulate_step sin inp s).2.TEMP = roundTo 2 inp.manual_temp) ∧
    (inp.manual_humid ≥ 0 →
      (simulate_step sin inp s).2.HUMID = roundTo 1 inp.manual_humid) := by
  constructor
  · intro h
    simp [simulate_step, raw_temp, if_pos h]
  · intro h
    simp [simulate_step, raw_humid, if_pos h]

/-- Claim C2 — witness: with `manual_temp = 40 ≥ 0` and
`manual_humid = 55 ≥ 0` the returned TEMP and HUMID are the overrides
rounded to their displayed precision. -/
theorem manual_override_rounded_witness :
    (inpManual40.manual_temp ≥ 0 ∧
      (simulate_step sinZero inpManual40 initState).2.TEMP =
        roundTo 2 inpManual40.manual_temp) ∧
    (inpManual40.manual_humid ≥ 0 ∧
      (simulate_step sinZero inpManual40 initState).2.HUMID =
        roundTo 1 inpManual40.manual_humid) := by
  have h1 : inpManual40.manual_temp ≥ 0 := by
    with_unfolding_all exact of_decide_eq_true rfl
  have h2 : inpManual40.manual_humid ≥ 0 := by
    with_unfolding_all exact of_decide_eq_true rfl
  exact ⟨⟨h1, (manual_override_rounded sinZero inpManual40 initState).1 h1⟩,
    ⟨h2, (manual_override_rounded sinZero inpManual40 initState).2 h2⟩⟩

/-- Claim C2 — counterexample to the claim as stated: with
`manual_temp = 0.001 ≥ 0` the returned reading's TEMP is `0.0`
(the override is rounded to two decimals before being stored in the
record), not `0.001`. -/
theorem manual_override_not_exact :
    inpMilli.manual_temp ≥ 0 ∧
      (simulate_step sinZero inpMilli initState).2.TEMP ≠
        inpMilli.manual_temp := by
  with_unfolding_all exact of_decide_eq_true rfl

/-- Claim C4 — with noise disabled and both manual overrides negative, the
generated reading is the stated deterministic function of the simulated
time `t = sim_t + dt`: the five baseline sinusoids with their stated
centers, amplitudes, angular frequencies and roundings; and any two states
agreeing on `sim_t` (and on the thresholds, which only feed the alarm
field) produce the identical reading. -/
theorem quiet_tick_sinusoids (sin : ℚ → ℚ) (inp : StepInput)
    (s : SessionState) (hn : inp.simulate_noise = false)
    (ht : inp.manual_temp < 0) (hh : inp.manual_humid < 0) :
    (simulate_step sin inp s).2.TEMP =
      roundTo 2 (37.0 + 0.3 * sin (0.05 * (s.sim_t + inp.dt))) ∧
    (simulate_step sin inp s).2.HUMID =
      roundTo 1 (60 + 5 * sin (0.03 * (s.sim_t + inp.dt))) ∧
    (simulate_step sin inp s).2.O2 =
      roundTo 2 (21 + 0.5 * sin (0.02 * (s.sim_t + inp.dt))) ∧
    (simulate_step sin inp s).2.CO2 =
      roundTo 3 (0.04 + 0.01 * sin (0.01 * (s.sim_t + inp.dt))) ∧
    (simulate_step sin inp s).2.FAN =
      roundHalfEven (50 + 10 * sin (0.02 * (s.sim_t + inp.dt))) ∧
    (∀ s2 : SessionState, s.sim_t = s2.sim_t → s.thresholds = s2.thresholds →
      (simulate_step sin inp s).2 = (simulate_step sin inp s2).2) := by
  have hmt : ¬ inp.manual_temp ≥ 0 := not_le.mpr ht
  have hmh : ¬ inp.manual_humid ≥ 0 := not_le.mpr hh
  refine ⟨?_, ?_, ?_, ?_, ?_, ?_⟩
  · simp [simulate_step, raw_temp, hn, hmt]
  · simp [simulate_step, raw_humid, hn, hmh]
  · simp [simulate_step, raw_o2, hn]
  · simp [simulate_step, raw_co2, hn]
  · simp [simulate_step, raw_fan, hn]
  · intro s2 h1 h2
    simp only [simulate_step, h1, h2]

/-- Claim C4 — witness: a concrete quiet tick from the initial state with
the zero sine function. -/
theorem quiet_tick_sinusoids_witness :
    inpQuiet.simulate_noise = false ∧ inpQuiet.manual_temp < 0 ∧
    inpQuiet.manual_humid < 0 ∧
    (simulate_step sinZero inpQuiet initState).2.TEMP =
      roundTo 2 (37.0 + 0.3 * sinZero (0.05 * (initState.sim_t + inpQuiet.dt))) := by
  have hn : inpQuiet.simulate_noise = false := rfl
  have ht : inpQuiet.manual_temp < 0 := by
    with_unfolding_all exact of_decide_eq_true rfl
  have hh : inpQuiet.manual_humid < 0 := by
    with_unfolding_all exact of_decide_eq_true rfl
  exact ⟨hn, ht, hh,
    (quiet_tick_sinusoids sinZero inpQuiet initState hn ht hh).1⟩

/-- Claim C6 — the `alarm_paused` flag does not influence the simulation
step at all: flipping it changes neither the returned reading (alarm
string included), nor the log, nor any other state component; the stepped
state differs only in the flag itself. -/
theorem alarm_paused_noninterference (sin : ℚ → ℚ) (inp : StepInput)
    (s : SessionState) (b : Bool) :
    (simulate_step sin inp { s with alarm_paused := b }).2 =
      (simulate_step sin inp s).2 ∧
    (simulate_step sin inp { s with alarm_paused := b }).1.log_rows =
      (simulate_step sin inp s).1.log_rows ∧
    (simulate_step sin inp { s with alarm_paused := b }).1 =
      { (simulate_step sin inp s).1 with alarm_paused := b } := by
  cases s
  refine ⟨?_, ?_, ?_⟩ <;> simp [simulate_step]

/-- Claim C7 — the Clear Log handler resets the unbounded log to the empty
sequence and leaves each per-parameter trend ring buffer (and everything
else) unchanged. -/
theorem clear_log_frame (s : SessionState) :
    (clear_log s).log_rows = [] ∧
    (clear_log s).temp_buffer = s.temp_buffer ∧
    (clear_log s).humid_buffer = s.humid_buffer ∧
    (clear_log s).o2_buffer = s.o2_buffer ∧
    (clear_log s).co2_buffer = s.co2_buffer ∧
    (clear_log s).sim_t = s.sim_t ∧
    (clear_log s).thresholds = s.thresholds :=
  ⟨rfl, rfl, rfl, rfl, rfl, rfl, rfl⟩

/-- Claim C8 — the Save Log handler never mutates the session state; on an
empty log it reports the informational no-data message and writes no file,
and on a non-empty log it serializes exactly the logged rows under the
header `timestamp,TEMP,HUMID,O2,CO2,FAN,alarm`. -/
theorem save_log_spec (s : SessionState) :
    (save_log s).1 = s ∧
    (s.log_rows = [] →
      (save_log s).2 = SaveOutcome.noData "No data to save yet.") ∧
    (s.log_rows ≠ [] →
      (save_log s).2 = SaveOutcome.savedFile
        ["timestamp", "TEMP", "HUMID", "O2", "CO2", "FAN", "alarm"]
        s.log_rows) := by
  refine ⟨?_, ?_, ?_⟩
  · by_cases h : s.log_rows.isEmpty <;> simp [save_log, h]
  · intro h
    simp [save_log, h]
  · intro h
    simp [save_log, h]

/-- Claim C8 — witness: the initial (empty-log) state yields the no-data
message; a state holding one row yields the serialized log under the fixed
header. -/
theorem save_log_spec_witness :
    initState.log_rows = [] ∧
    (save_log initState).2 = SaveOutcome.noData "No data to save yet." ∧
    ({ initState with log_rows := [sampleRow] } : SessionState).log_rows ≠ [] ∧
    (save_log { initState with log_rows := [sampleRow] }).2 =
      SaveOutcome.savedFile
        ["timestamp", "TEMP", "HUMID", "O2", "CO2", "FAN", "alarm"]
        [sampleRow] := by
  have h1 : initState.log_rows = [] := rfl
  have h2 : ({ initState with log_rows := [sampleRow] } : SessionState).log_rows ≠ [] := by
    simp
  exact ⟨h1, (save_log_spec initState).2.1 h1, h2,
    (save_log_spec { initState with log_rows := [sampleRow] }).2.2 h2⟩

/-- Two string concatenations whose left parts start with distinct
characters are distinct strings. -/
theorem append_ne_append_of_head (c1 c2 : Char) (l1 l2 : List Char)
    (p1 p2 t1 t2 : String) (h1 : p1.data = c1 :: l1)
    (h2 : p2.data = c2 :: l2) (hc : c1 ≠ c2) : p1 ++ t1 ≠ p2 ++ t2 := by
  intro h
  have hd := congrArg String.data h
  rw [String.data_append, String.data_append, h1, h2] at hd
  simp at hd
  exact hc hd.1

/-- Membership in a conditional singleton. -/
theorem mem_ite_singleton (c : Prop) [Decidable c] (x y : String) :
    (x ∈ if c then [y] else ([] : List String)) ↔ c ∧ x = y := by
  by_cases h : c <;> simp [h]

/-- Claim C1 — a parameter's violation message appears in the alarm list
exactly when its reading value lies strictly outside the configured
[min, max]; in particular boundary values (equal to min or to max) are
never flagged.  This holds for each of TEMP, HUMID, O2, CO2 and FAN. -/
theorem alarm_flag_iff_strictly_outside (rT rH rO rC : ℚ) (rF : ℤ)
    (th : Thresholds) :
    (("TEMP " ++ fmtQ rT) ∈ alarm_checks rT rH rO rC rF th ↔
      (rT < th.TEMP_min ∨ rT > th.TEMP_max)) ∧
    (("HUMID " ++ fmtQ rH) ∈ alarm_checks rT rH rO rC rF th ↔
      (rH < th.HUMID_min ∨ rH > th.HUMID_max)) ∧
    (("O2 " ++ fmtQ rO) ∈ alarm_checks rT rH rO rC rF th ↔
      (rO < th.O2_min ∨ rO > th.O2_max)) ∧
    (("CO2 " ++ fmtQ rC) ∈ alarm_checks rT rH rO rC rF th ↔
      (rC < th.CO2_min ∨ rC > th.CO2_max)) ∧
    (("FAN " ++ toString rF) ∈ alarm_checks rT rH rO rC rF th ↔
      ((rF : ℚ) < th.FAN_min ∨ (rF : ℚ) > th.FAN_max)) := by
  have hTH : ("TEMP " ++ fmtQ rT) ≠ ("HUMID " ++ fmtQ rH) :=
    append_ne_append_of_head 'T' 'H' _ _ _ _ _ _ rfl rfl (by decide)
  have hTO : ("TEMP " ++ fmtQ rT) ≠ ("O2 " ++ fmtQ rO) :=
    append_ne_append_of_head 'T' 'O' _ _ _ _ _ _ rfl rfl (by decide)
  have hTC : ("TEMP " ++ fmtQ rT) ≠ ("CO2 " ++ fmtQ rC) :=
    append_ne_append_of_head 'T' 'C' _ _ _ _ _ _ rfl rfl (by decide)
  have hTF : ("TEMP " ++ fmtQ rT) ≠ ("FAN " ++ toString rF) :=
    append_ne_append_of_head 'T' 'F' _ _ _ _ _ _ rfl rfl (by decide)
  have hHO : ("HUMID " ++ fmtQ rH) ≠ ("O2 " ++ fmtQ rO) :=
    append_ne_append_of_head 'H' 'O' _ _ _ _ _ _ rfl rfl (by decide)
  have hHC : ("HUMID " ++ fmtQ rH) ≠ ("CO2 " ++ fmtQ rC) :=
    append_ne_append_of_head 'H' 'C' _ _ _ _ _ _ rfl rfl (by decide)
  have hHF : ("HUMID " ++ fmtQ rH) ≠ ("FAN " ++ toString rF) :=
    append_ne_append_of_head 'H' 'F' _ _ _ _ _ _ rfl rfl (by decide)
  have hOC : ("O2 " ++ fmtQ rO) ≠ ("CO2 " ++ fmtQ rC) :=
    append_ne_append_of_head 'O' 'C' _ _ _ _ _ _ rfl rfl (by decide)
  have hOF : ("O2 " ++ fmtQ rO) ≠ ("FAN " ++ toString rF) :=
    append_ne_append_of_head 'O' 'F' _ _ _ _ _ _ rfl rfl (by decide)
  have hCF : ("CO2 " ++ fmtQ rC) ≠ ("FAN " ++ toString rF) :=
    append_ne_append_of_head 'C' 'F' _ _ _ _ _ _ rfl rfl (by decide)
  refine ⟨?_, ?_, ?_, ?_, ?_⟩ <;>
    simp [alarm_checks, List.mem_append, mem_ite_singleton,
      hTH, hTO, hTC, hTF, hHO, hHC, hHF, hOC, hOF, hCF,
      Ne.symm hTH, Ne.symm hTO, Ne.symm hTC, Ne.symm hTF, Ne.symm hHO,
      Ne.symm hHC, Ne.symm hHF, Ne.symm hOC, Ne.symm hOF, Ne.symm hCF]

/-- Joining with the emptiness guard of line 189 equals the plain join. -/
theorem join_if (l : List String) :
    (if l.isEmpty then "" else String.intercalate "; " l) =
      String.intercalate "; " l := by
  cases l <;> simp [String.intercalate]

/-- Claim C5 — the violation list is produced in the fixed order TEMP,
HUMID, O2, CO2, FAN (it equals the order-respecting filter of the five
parameters by the strict range check, mapped to their messages); the
reading's alarm field is that list joined with `"; "`; and when the list is
empty the alarm field is the empty string. -/
theorem alarm_order_join_empty (rT rH rO rC : ℚ) (rF : ℤ) (th : Thresholds)
    (sin : ℚ → ℚ) (inp : StepInput) (s : SessionState) :
    (alarm_checks rT rH rO rC rF th =
      (param_order.filter fun p => spec_flagged p rT rH rO rC rF th).map
        fun p => spec_message p rT rH rO rC rF) ∧
    ((simulate_step sin inp s).2.alarm = String.intercalate "; "
      (alarm_checks (simulate_step sin inp s).2.TEMP
        (simulate_step sin inp s).2.HUMID (simulate_step sin inp s).2.O2
        (simulate_step sin inp s).2.CO2 (simulate_step sin inp s).2.FAN
        s.thresholds)) ∧
    (alarm_checks (simulate_step sin inp s).2.TEMP
        (simulate_step sin inp s).2.HUMID (simulate_step sin inp s).2.O2
        (simulate_step sin inp s).2.CO2 (simulate_step sin inp s).2.FAN
        s.thresholds = [] →
      (simulate_step sin inp s).2.alarm = "") := by
  have hjoin : (simulate_step sin inp s).2.alarm = String.intercalate "; "
      (alarm_checks (simulate_step sin inp s).2.TEMP
        (simulate_step sin inp s).2.HUMID (simulate_step sin inp s).2.O2
        (simulate_step sin inp s).2.CO2 (simulate_step sin inp s).2.FAN
        s.thresholds) := by
    simp only [simulate_step]
    exact join_if _
  refine ⟨?_, hjoin, fun h => by rw [hjoin, h]; rfl⟩
  by_cases h1 : (rT < th.TEMP_min ∨ rT > th.TEMP_max) <;>
  by_cases h2 : (rH < th.HUMID_min ∨ rH > th.HUMID_max) <;>
  by_cases h3 : (rO < th.O2_min ∨ rO > th.O2_max) <;>
  by_cases h4 : (rC < th.CO2_min ∨ rC > th.CO2_max) <;>
  by_cases h5 : ((rF : ℚ) < th.FAN_min ∨ (rF : ℚ) > th.FAN_max) <;>
  simp [alarm_checks, param_order, spec_flagged, spec_message,
    h1, h2, h3, h4, h5]

/-- Claim C5 — witness: a quiet tick from the initial state violates
nothing, and its alarm field is the empty string. -/
theorem alarm_order_join_empty_witness :
    (alarm_checks (simulate_step sinZero inpQuiet initState).2.TEMP
      (simulate_step sinZero inpQuiet initState).2.HUMID
      (simulate_step sinZero inpQuiet initState).2.O2
      (simulate_step sinZero inpQuiet initState).2.CO2
      (simulate_step sinZero inpQuiet initState).2.FAN
      initState.thresholds = []) ∧
    (simulate_step sinZero inpQuiet initState).2.alarm = "" := by
  have h : alarm_checks (simulate_step sinZero inpQuiet initState).2.TEMP
      (simulate_step sinZero inpQuiet initState).2.HUMID
      (simulate_step sinZero inpQuiet initState).2.O2
      (simulate_step sinZero inpQuiet initState).2.CO2
      (simulate_step sinZero inpQuiet initState).2.FAN
      initState.thresholds = [] := by
    with_unfolding_all exact of_decide_eq_true rfl
  exact ⟨h, (alarm_order_join_empty 0 0 0 0 0 initState.thresholds
    sinZero inpQuiet initState).2.2 h⟩

/-- Projection of one tick: the TEMP trend buffer receives the raw value. -/
theorem step_temp_buffer (sin : ℚ → ℚ) (inp : StepInput) (s : SessionState) :
    (simulate_step sin inp s).1.temp_buffer =
      pushRing 300 (raw_temp sin inp (s.sim_t + inp.dt)) s.temp_buffer := by
  simp only [simulate_step]

/-- Projection of one tick: the HUMID trend buffer receives the raw value. -/
theorem step_humid_buffer (sin : ℚ → ℚ) (inp : StepInput) (s : SessionState) :
    (simulate_step sin inp s).1.humid_buffer =
      pushRing 300 (raw_humid sin inp (s.sim_t + inp.dt)) s.humid_buffer := by
  simp only [simulate_step]

/-- Projection of one tick: the O2 trend buffer receives the raw value. -/
theorem step_o2_buffer (sin : ℚ → ℚ) (inp : StepInput) (s : SessionState) :
    (simulate_step sin inp s).1.o2_buffer =
      pushRing 300 (raw_o2 sin inp (s.sim_t + inp.dt)) s.o2_buffer := by
  simp only [simulate_step]

/-- Projection of one tick: the CO2 trend buffer receives the raw value. -/
theorem step_co2_buffer (sin : ℚ → ℚ) (inp : StepInput) (s : SessionState) :
    (simulate_step sin inp s).1.co2_buffer =
      pushRing 300 (raw_co2 sin inp (s.sim_t + inp.dt)) s.co2_buffer := by
  simp only [simulate_step]

/-- Projection of one tick: the full row is appended to the unbounded log. -/
theorem step_log_rows (sin : ℚ → ℚ) (inp : StepInput) (s : SessionState) :
    (simulate_step sin inp s).1.log_rows =
      s.log_rows ++ [(simulate_step sin inp s).2] := by
  simp only [simulate_step]

/-- Claim C3 (amended) — each append pushes the raw, pre-rounding TEMP,
HUMID, O2 and CO2 channel values onto their dedicated capacity-300 ring
buffers (FAN has no ring buffer), in addition to appending the full row to
the unbounded log sequence. -/
theorem append_pushes_four_buffers (sin : ℚ → ℚ) (inp : StepInput)
    (s : SessionState) :
    (simulate_step sin inp s).1.temp_buffer =
      pushRing 300 (raw_temp sin inp (s.sim_t + inp.dt)) s.temp_buffer ∧
    (simulate_step sin inp s).1.humid_buffer =
      pushRing 300 (raw_humid sin inp (s.sim_t + inp.dt)) s.humid_buffer ∧
    (simulate_step sin inp s).1.o2_buffer =
      pushRing 300 (raw_o2 sin inp (s.sim_t + inp.dt)) s.o2_buffer ∧
    (simulate_step sin inp s).1.co2_buffer =
      pushRing 300 (raw_co2 sin inp (s.sim_t + inp.dt)) s.co2_buffer ∧
    (simulate_step sin inp s).1.log_rows =
      s.log_rows ++ [(simulate_step sin inp s).2] :=
  ⟨step_temp_buffer sin inp s, step_humid_buffer sin inp s,
    step_o2_buffer sin inp s, step_co2_buffer sin inp s,
    step_log_rows sin inp s⟩

/-- Claim C3 — counterexample to the claim as stated: after a tick with
manual temperature `36.505`, the reading's (rounded) TEMP value `36.5` is
in no buffer — the TEMP buffer received the raw `36.505` instead — and the
reading's FAN value `50` is in none of the four buffers either: there is no
ring buffer dedicated to FAN. -/
theorem five_buffers_counterexample :
    (simulate_step sinZero inpFanDemo initState).2.TEMP ∉
      (simulate_step sinZero inpFanDemo initState).1.temp_buffer ∧
    ((simulate_step sinZero inpFanDemo initState).2.FAN : ℚ) ∉
      (simulate_step sinZero inpFanDemo initState).1.temp_buffer ∧
    ((simulate_step sinZero inpFanDemo initState).2.FAN : ℚ) ∉
      (simulate_step sinZero inpFanDemo initState).1.humid_buffer ∧
    ((simulate_step sinZero inpFanDemo initState).2.FAN : ℚ) ∉
      (simulate_step sinZero inpFanDemo initState).1.o2_buffer ∧
    ((simulate_step sinZero inpFanDemo initState).2.FAN : ℚ) ∉
      (simulate_step sinZero inpFanDemo initState).1.co2_buffer := by
  set_option maxRecDepth 100000 in
  with_unfolding_all exact of_decide_eq_true rfl

/-- The length of a ring-buffer push: one more than before, capped. -/
theorem pushRing_length (cap : ℕ) (x : ℚ) (l : List ℚ) :
    (pushRing cap x l).length = min (l.length + 1) cap := by
  simp [pushRing]
  omega

/-- Claim C10 — at initialization every trend buffer is already full: 300
copies of the channel baseline; one tick preserves the exact-300 length of
every buffer, and the Clear Log and Save Log handlers do not touch the
buffers at all. -/
theorem buffers_full_from_start (sin : ℚ → ℚ) (inp : StepInput)
    (s t : SessionState) :
    initState.temp_buffer = List.replicate 300 (37.0 : ℚ) ∧
    initState.humid_buffer = List.replicate 300 (60.0 : ℚ) ∧
    initState.o2_buffer = List.replicate 300 (21.0 : ℚ) ∧
    initState.co2_buffer = List.replicate 300 (0.04 : ℚ) ∧
    (s.temp_buffer.length = 300 →
      (simulate_step sin inp s).1.temp_buffer.length = 300) ∧
    (s.humid_buffer.length = 300 →
      (simulate_step sin inp s).1.humid_buffer.length = 300) ∧
    (s.o2_buffer.length = 300 →
      (simulate_step sin inp s).1.o2_buffer.length = 300) ∧
    (s.co2_buffer.length = 300 →
      (simulate_step sin inp s).1.co2_buffer.length = 300) ∧
    (clear_log t).temp_buffer = t.temp_buffer ∧
    (clear_log t).humid_buffer = t.humid_buffer ∧
    (clear_log t).o2_buffer = t.o2_buffer ∧
    (clear_log t).co2_buffer = t.co2_buffer ∧
    (save_log t).1 = t := by
  refine ⟨rfl, rfl, rfl, rfl, ?_, ?_, ?_, ?_, rfl, rfl, rfl, rfl, ?_⟩
  · intro h
    rw [step_temp_buffer, pushRing_length, h]
    omega
  · intro h
    rw [step_humid_buffer, pushRing_length, h]
    omega
  · intro h
    rw [step_o2_buffer, pushRing_length, h]
    omega
  · intro h
    rw [step_co2_buffer, pushRing_length, h]
    omega
  · by_cases h : t.log_rows.isEmpty <;> simp [save_log, h]

/-- Claim C10 — witness: the initial buffers have length 300 and keep it
across a concrete tick. -/
theorem buffers_full_from_start_witness :
    initState.temp_buffer.length = 300 ∧
    (simulate_step sinZero inpQuiet initState).1.temp_buffer.length = 300 := by
  have h : initState.temp_buffer.length = 300 := by
    rw [show initState.temp_buffer = List.replicate 300 (37.0 : ℚ) from rfl]
    exact List.length_replicate 300 _
  exact ⟨h, (buffers_full_from_start sinZero inpQuiet initState
    initState).2.2.2.2.1 h⟩

/-- Taking from the left absorbs an inner take of the right part. -/
theorem take_append_take (n : ℕ) (c d : List ℚ) :
    (c ++ d.take n).take n = (c ++ d).take n := by
  rw [List.take_append_eq_append_take, List.take_append_eq_append_take,
    List.take_take]
  rw [Nat.min_eq_left (Nat.sub_le n c.length)]

/-- Taking from the right absorbs an inner right-take of the left part. -/
theorem rtake_append_rtake (n : ℕ) (a b : List ℚ) :
    (a.rtake n ++ b).rtake n = (a ++ b).rtake n := by
  simp only [List.rtake_eq_reverse_take_reverse, List.reverse_append,
    List.reverse_reverse]
  rw [take_append_take]

/-- A right-take longer than the list is the whole list. -/
theorem rtake_all_of_le (n : ℕ) (l : List ℚ) (h : l.length ≤ n) :
    l.rtake n = l := by
  show l.drop (l.length - n) = l
  rw [Nat.sub_eq_zero_of_le h, List.drop_zero]

/-- A right-take no longer than the right part of an append ignores the
left part. -/
theorem rtake_append_of_le_length (n : ℕ) (a b : List ℚ)
    (h : n ≤ b.length) : (a ++ b).rtake n = b.rtake n := by
  show (a ++ b).drop ((a ++ b).length - n) = b.drop (b.length - n)
  rw [List.length_append, List.drop_append_eq_append_drop]
  have ha : a.drop (a.length + b.length - n) = [] :=
    List.drop_eq_nil_of_le (by omega)
  rw [ha, List.nil_append]
  congr 1
  omega

/-- A run appends one TEMP value per tick. -/
theorem tempTrace_length (sin : ℚ → ℚ) (ins : List StepInput) :
    ∀ s : SessionState, (tempTrace sin s ins).length = ins.length := by
  induction ins with
  | nil => intro s; rfl
  | cons i is IH => intro s; simp [tempTrace, IH]

/-- A run appends one HUMID value per tick. -/
theorem humidTrace_length (sin : ℚ → ℚ) (ins : List StepInput) :
    ∀ s : SessionState, (humidTrace sin s ins).length = ins.length := by
  induction ins with
  | nil => intro s; rfl
  | cons i is IH => intro s; simp [humidTrace, IH]

/-- A run appends one O2 value per tick. -/
theorem o2Trace_length (sin : ℚ → ℚ) (ins : List StepInput) :
    ∀ s : SessionState, (o2Trace sin s ins).length = ins.length := by
  induction ins with
  | nil => intro s; rfl
  | cons i is IH => intro s; simp [o2Trace, IH]

/-- A run appends one CO2 value per tick. -/
theorem co2Trace_length (sin : ℚ → ℚ) (ins : List StepInput) :
    ∀ s : SessionState, (co2Trace sin s ins).length = ins.length := by
  induction ins with
  | nil => intro s; rfl
  | cons i is IH => intro s; simp [co2Trace, IH]

/-- Along any run from buffers of length at most 300, each trend buffer is
the right-take of the initial buffer followed by the run's appended
values. -/
theorem runSteps_buffers_rtake (sin : ℚ → ℚ) (ins : List StepInput) :
    ∀ s : SessionState, s.temp_buffer.length ≤ 300 →
      s.humid_buffer.length ≤ 300 → s.o2_buffer.length ≤ 300 →
      s.co2_buffer.length ≤ 300 →
      (runSteps sin s ins).temp_buffer =
        (s.temp_buffer ++ tempTrace sin s ins).rtake 300 ∧
      (runSteps sin s ins).humid_buffer =
        (s.humid_buffer ++ humidTrace sin s ins).rtake 300 ∧
      (runSteps sin s ins).o2_buffer =
        (s.o2_buffer ++ o2Trace sin s ins).rtake 300 ∧
      (runSteps sin s ins).co2_buffer =
        (s.co2_buffer ++ co2Trace sin s ins).rtake 300 := by
  induction ins with
  | nil =>
    intro s h1 h2 h3 h4
    refine ⟨?_, ?_, ?_, ?_⟩ <;>
      simp [runSteps, tempTrace, humidTrace, o2Trace, co2Trace,
        rtake_all_of_le _ _ h1, rtake_all_of_le _ _ h2,
        rtake_all_of_le _ _ h3, rtake_all_of_le _ _ h4]
  | cons i is IH =>
    intro s h1 h2 h3 h4
    have hb1 : (simulate_step sin i s).1.temp_buffer.length ≤ 300 := by
      rw [step_temp_buffer, pushRing_length]
      omega
    have hb2 : (simulate_step sin i s).1.humid_buffer.length ≤ 300 := by
      rw [step_humid_buffer, pushRing_length]
      omega
    have hb3 : (simulate_step sin i s).1.o2_buffer.length ≤ 300 := by
      rw [step_o2_buffer, pushRing_length]
      omega
    have hb4 : (simulate_step sin i s).1.co2_buffer.length ≤ 300 := by
      rw [step_co2_buffer, pushRing_length]
      omega
    obtain ⟨e1, e2, e3, e4⟩ := IH (simulate_step sin i s).1 hb1 hb2 hb3 hb4
    have hr : runSteps sin s (i :: is) =
        runSteps sin (simulate_step sin i s).1 is := rfl
    refine ⟨?_, ?_, ?_, ?_⟩
    · rw [hr, e1, step_temp_buffer]
      rw [show pushRing 300 (raw_temp sin i (s.sim_t + i.dt)) s.temp_buffer =
        (s.temp_buffer ++ [raw_temp sin i (s.sim_t + i.dt)]).rtake 300 from rfl]
      rw [rtake_append_rtake, List.append_assoc, List.singleton_append]
      rfl
    · rw [hr, e2, step_humid_buffer]
      rw [show pushRing 300 (raw_humid sin i (s.sim_t + i.dt)) s.humid_buffer =
        (s.humid_buffer ++ [raw_humid sin i (s.sim_t + i.dt)]).rtake 300 from rfl]
      rw [rtake_append_rtake, List.append_assoc, List.singleton_append]
      rfl
    · rw [hr, e3, step_o2_buffer]
      rw [show pushRing 300 (raw_o2 sin i (s.sim_t + i.dt)) s.o2_buffer =
        (s.o2_buffer ++ [raw_o2 sin i (s.sim_t + i.dt)]).rtake 300 from rfl]
      rw [rtake_append_rtake, List.append_assoc, List.singleton_append]
      rfl
    · rw [hr, e4, step_co2_buffer]
      rw [show pushRing 300 (raw_co2 sin i (s.sim_t + i.dt)) s.co2_buffer =
        (s.co2_buffer ++ [raw_co2 sin i (s.sim_t + i.dt)]).rtake 300 from rfl]
      rw [rtake_append_rtake, List.append_assoc, List.singleton_append]
      rfl

/-- Claim C9 — for each parameter that has a ring buffer, after a run of
strictly more than 300 ticks from full (length-300) buffers, the buffer is
exactly the run's last 300 appended values for that parameter, oldest
first: the appended-value sequence with all but the final 300 entries
dropped. -/
theorem ring_buffer_holds_last_300 (sin : ℚ → ℚ) (ins : List StepInput)
    (s : SessionState) (h1 : s.temp_buffer.length = 300)
    (h2 : s.humid_buffer.length = 300) (h3 : s.o2_buffer.length = 300)
    (h4 : s.co2_buffer.length = 300) (hlen : ins.length > 300) :
    (runSteps sin s ins).temp_buffer =
      (tempTrace sin s ins).drop (ins.length - 300) ∧
    (runSteps sin s ins).humid_buffer =
      (humidTrace sin s ins).drop (ins.length - 300) ∧
    (runSteps sin s ins).o2_buffer =
      (o2Trace sin s ins).drop (ins.length - 300) ∧
    (runSteps sin s ins).co2_buffer =
      (co2Trace sin s ins).drop (ins.length - 300) := by
  obtain ⟨e1, e2, e3, e4⟩ := runSteps_buffers_rtake sin ins s
    (le_of_eq h1) (le_of_eq h2) (le_of_eq h3) (le_of_eq h4)
  have ht1 : (tempTrace sin s ins).length = ins.length :=
    tempTrace_length sin ins s
  have ht2 : (humidTrace sin s ins).length = ins.length :=
    humidTrace_length sin ins s
  have ht3 : (o2Trace sin s ins).length = ins.length :=
    o2Trace_length sin ins s
  have ht4 : (co2Trace sin s ins).length = ins.length :=
    co2Trace_length sin ins s
  refine ⟨?_, ?_, ?_, ?_⟩
  · rw [e1, rtake_append_of_le_length 300 _ _ (by omega)]
    show (tempTrace sin s ins).drop ((tempTrace sin s ins).length - 300) = _
    rw [ht1]
  · rw [e2, rtake_append_of_le_length 300 _ _ (by omega)]
    show (humidTrace sin s ins).drop ((humidTrace sin s ins).length - 300) = _
    rw [ht2]
  · rw [e3, rtake_append_of_le_length 300 _ _ (by omega)]
    show (o2Trace sin s ins).drop ((o2Trace sin s ins).length - 300) = _
    rw [ht3]
  · rw [e4, rtake_append_of_le_length 300 _ _ (by omega)]
    show (co2Trace sin s ins).drop ((co2Trace sin s ins).length - 300) = _
    rw [ht4]

/-- Claim C9 — witness: a concrete run of 301 quiet ticks from the initial
state. -/
theorem ring_buffer_holds_last_300_witness :
    initState.temp_buffer.length = 300 ∧
    initState.humid_buffer.length = 300 ∧
    initState.o2_buffer.length = 300 ∧
    initState.co2_buffer.length = 300 ∧
    (List.replicate 301 inpQuiet).length > 300 ∧
    (runSteps sinZero initState (List.replicate 301 inpQuiet)).temp_buffer =
      (tempTrace sinZero initState (List.replicate 301 inpQuiet)).drop
        ((List.replicate 301 inpQuiet).length - 300) := by
  have h1 : initState.temp_buffer.length = 300 := by
    rw [show initState.temp_buffer = List.replicate 300 (37.0 : ℚ) from rfl]
    exact List.length_replicate 300 _
  have h2 : initState.humid_buffer.length = 300 := by
    rw [show initState.humid_buffer = List.replicate 300 (60.0 : ℚ) from rfl]
    exact List.length_replicate 300 _
  have h3 : initState.o2_buffer.length = 300 := by
    rw [show initState.o2_buffer = List.replicate 300 (21.0 : ℚ) from rfl]
    exact List.length_replicate 300 _
  have h4 : initState.co2_buffer.length = 300 := by
    rw [show initState.co2_buffer = List.replicate 300 (0.04 : ℚ) from rfl]
    exact List.length_replicate 300 _
  have hlen : (List.replicate 301 inpQuiet).length > 300 := by
    rw [List.length_replicate]
    omega
  exact ⟨h1, h2, h3, h4, hlen, (ring_buffer_holds_last_300 sinZero
    (List.replicate 301 inpQuiet) initState h1 h2 h3 h4 hlen).1⟩

end Incubator
